import Mathlib

/-
Verification of the simple_react_agent repository: a shallow embedding of the
tool-invocation orchestration loop (src/agent/core.py), the tool registry
(src/tools/register.py), the persistent memory store (src/agent/utils/memory.py)
and the current-time tool (src/tools/getcurrenttime.py), with theorems settling
the frozen behavioural claims about them.

Modelling conventions:
- Python strings are Lean `String`s; where index arithmetic matters
  (the plan-extraction step) we work on `List Char`.
- Python dicts whose insertion order is observable are association lists
  `List (String × _)`; assignment `d[k] = v` updates the first matching key in
  place (Python dicts keep the original insertion position on re-assignment).
- Code that can raise is `Except String _` (the `String` is Python's `str(e)`);
  code wrapped in a `try/except` returning a value is total.
- Collaborators (the LLM transport, the Jinja engine, tool executors, the
  wall clock, file-system success) are environment parameters: each call site
  that consults a collaborator takes its outcome as an argument.
- The durable memory file is modelled at the level of the parsed JSON document
  (the byte-level serialisation is the Python standard library's `json`,
  outside the repository); a file on disk is absent, unparseable, or a
  parsed document with possibly-missing top-level keys.
-/

namespace SimpleReactAgent

/-- Generic JSON-compatible value (tool parameters and plan fragments are
schema-less model output). Numbers are abstracted to integers; no claim
depends on numeric behaviour. -/
inductive Json where
  | null : Json
  | bool (b : Bool) : Json
  | num (n : Int) : Json
  | str (s : String) : Json
  | arr (elems : List Json) : Json
  | obj (fields : List (String × Json)) : Json

/-! ## Plan extraction (src/agent/core.py, SimpleAgent._analyze_tool_needs)

`response.strip()`, then `response.find("{")`, `response.rfind("}")`, then the
slice `response[start_idx : end_idx + 1]` is handed to `json.loads`. We model
the substring-extraction step on `List Char`; `none` models the
`raise ValueError("No valid JSON found in response")` branch. -/

/-- The whitespace predicate used by `str.strip` (restricted to the ASCII
whitespace that can actually occur around model output; Python strips a
slightly larger set, which no claim depends on). -/
def pySpace (c : Char) : Bool := c == ' ' || c == '\t' || c == '\n' || c == '\r'

/-- Python `s.strip()` on a character list. -/
def pyStrip (s : List Char) : List Char :=
  ((s.dropWhile pySpace).reverse.dropWhile pySpace).reverse

/-- Python `s.find(c)`: index of the first occurrence, `none` for -1. -/
def pyFind (c : Char) (s : List Char) : Option Nat :=
  s.findIdx? (fun d => d == c)

/-- Python `s.rfind(c)`: index of the last occurrence, `none` for -1. -/
def pyRFind (c : Char) (s : List Char) : Option Nat :=
  match s.reverse.findIdx? (fun d => d == c) with
  | none => none
  | some k => some (s.length - 1 - k)

/-- The brace-located substring handed to `json.loads` by
`_analyze_tool_needs`: strip the reply, find the first `x7b` and the last
`x7d`, and if both exist with the latter strictly after the former, take the
inclusive slice. `none` models the `ValueError` raised otherwise. -/
def analyzeExtract (response : List Char) : Option (List Char) :=
  let r := pyStrip response
  match pyFind '{' r, pyRFind '}' r with
  | some i, some j => if i < j then some ((r.drop i).take (j + 1 - i)) else none
  | some _, none => none
  | none, _ => none

/-! ## Tool registry (src/tools/register.py, ToolManager) -/

/-- A registered tool's executor: `tool.execute(**parameters)`, which may
raise (e.g. `TypeError` on unexpected keyword arguments). -/
def ToolExec : Type := Json → Except String String

/-- The `self.tools` dict: name to executor, in registration order. -/
def ToolRegistry : Type := List (String × ToolExec)

/-- Dict lookup `name in self.tools` / `self.tools[name]`. -/
def lookupTool : ToolRegistry → String → Option ToolExec
  | [], _ => none
  | p :: rest, name => if p.1 = name then some p.2 else lookupTool rest name

/-- Python's `str` of the `KeyError` raised by `get_tool`: the `repr` of the
message, which is double-quoted because the message contains single quotes. -/
def keyErrorText (name : String) : String :=
  "\"Tool '" ++ name ++ "' not found\""

/-- `ToolManager.get_tool`: exact-name lookup, raising `KeyError` if absent. -/
def get_tool (reg : ToolRegistry) (name : String) : Except String ToolExec :=
  match lookupTool reg name with
  | none => Except.error (keyErrorText name)
  | some t => Except.ok t

/-- `ToolManager.execute_tool`: `get_tool` then `tool.execute(**parameters)`,
with every exception converted to the textual error result. -/
def execute_tool (reg : ToolRegistry) (name : String) (params : Json) : String :=
  match get_tool reg name with
  | Except.error e => "Error executing tool '" ++ name ++ "': " ++ e
  | Except.ok t =>
    match t params with
    | Except.ok s => s
    | Except.error e => "Error executing tool '" ++ name ++ "': " ++ e

/-! ## Tool plan and tool execution (src/agent/core.py) -/

/-- One entry of `tools_to_use` as the ToolPlan data model declares it: a
mapping that may or may not carry `tool_name` and `parameters` keys
(read with `tool_spec.get("tool_name", "")` / `tool_spec.get("parameters", {})`). -/
structure ToolSpecEntry where
  tool_name : Option String
  parameters : Option Json

/-- The parsed tool plan after `_analyze_tool_needs` back-fills its three
required keys. -/
structure ToolPlan where
  needs_tools : Bool
  tools_to_use : List ToolSpecEntry
  reasoning : String

/-- Python dict assignment `d[k] = v` on an insertion-ordered dict: an
existing key keeps its original position and gets the new value; a new key
is appended. -/
def dictInsert : List (String × String) → String → String → List (String × String)
  | [], k, v => [(k, v)]
  | p :: rest, k, v => if p.1 = k then (k, v) :: rest else p :: dictInsert rest k v

/-- Dict membership-and-read `m[k]` as an option. -/
def lookupStr : List (String × String) → String → Option String
  | [], _ => none
  | p :: rest, k => if p.1 = k then some p.2 else lookupStr rest k

/-- The keys of a result mapping, in order (`list(d.keys())`). -/
def keysOf (m : List (String × String)) : List String := m.map Prod.fst

/-- The loop body of `SimpleAgent._execute_tools` with its accumulated
`tool_results` dict: read `tool_name` (default empty) and `parameters`
(default empty mapping), skip falsy names, otherwise execute and record. -/
def execToolsAux (execT : String → Json → String) (acc : List (String × String)) :
    List ToolSpecEntry → List (String × String)
  | [] => acc
  | spec :: rest =>
    let name := spec.tool_name.getD ""
    let params := spec.parameters.getD (Json.obj [])
    if name = "" then execToolsAux execT acc rest
    else execToolsAux execT (dictInsert acc name (execT name params)) rest

/-- `SimpleAgent._execute_tools`: run the plan's entries in order against the
registry, building the `tool_results` dict. -/
def _execute_tools (execT : String → Json → String) (tools_to_use : List ToolSpecEntry) :
    List (String × String) :=
  execToolsAux execT [] tools_to_use

/-- Spec-side description of one entry's effect: the name under which the
entry is executed, or `none` when the entry is skipped (its `tool_name`
defaults to the empty string, and falsy names are skipped). -/
def activeName (s : ToolSpecEntry) : Option String :=
  if s.tool_name.getD "" = "" then none else some (s.tool_name.getD "")

/-- Spec-side: the names executed by a plan, in plan order, skips removed. -/
def activeNames (specs : List ToolSpecEntry) : List String :=
  specs.filterMap activeName

/-- The parameters an entry is executed with (`get("parameters", {})`). -/
def entryParams (s : ToolSpecEntry) : Json := s.parameters.getD (Json.obj [])

/-- Spec-side: the parameters of the LAST entry executed under name `k`
(last-write-wins), if any. -/
def lastParams : List ToolSpecEntry → String → Option Json
  | [], _ => none
  | s :: rest, k =>
    match lastParams rest k with
    | some ps => some ps
    | none =>
      match activeName s with
      | some n => if n = k then some (entryParams s) else none
      | none => none

/-- Spec-side: append a key unless already present. -/
def insertKey (ks : List String) (k : String) : List String :=
  if k ∈ ks then ks else ks ++ [k]

/-- Spec-side: first-occurrence deduplication, preserving order — the key
sequence of an insertion-ordered dict built by repeated assignment. -/
def firstDedup (l : List String) : List String := l.foldl insertKey []

/-! ## Prompt rendering (src/agent/core.py, SimpleAgent._render_template) -/

/-- The collaborator outcomes one `_render_template` call can observe:
the Jinja render attempt, whether `template_name in self.prompts`, the
`str.format(**kwargs)` attempt on the raw prompt text, and `str(kwargs)`. -/
structure RenderEnv where
  jinja : Except String String
  inPrompts : Bool
  pyFormat : Except String String
  strDump : String

/-- `SimpleAgent._render_template`: try the Jinja render; on any exception,
if the template name is among the loaded prompts return the result of
`str.format` on the raw prompt text (whose own exception is NOT caught),
otherwise return `str(kwargs)`. -/
def _render_template (env : RenderEnv) : Except String String :=
  match env.jinja with
  | Except.ok s => Except.ok s
  | Except.error _ =>
    if env.inPrompts then env.pyFormat else Except.ok env.strDump

/-! ## The per-turn pipeline (src/agent/core.py, SimpleAgent.process_user_input) -/

/-- The result dict of one processed turn. `tool_analysis` is present only in
the success dict and `error` only in the failure dict; `none` models the
absent key. -/
structure TurnResult where
  response : String
  tools_used : List String
  tool_results : List (String × String)
  summary : String
  tool_analysis : Option ToolPlan
  error : Option String

/-- The collaborator outcomes one `process_user_input` call can observe, for
a fixed user input: the plan analysis, the registry's (total) tool execution,
response generation, summary generation, persistence, and in the error branch
the rendering of the error prompt (fallible, see `_render_template`) followed
by the (total) LLM call on it. -/
structure AgentEnv where
  analyze : Except String ToolPlan
  execTool : String → Json → String
  respond : List (String × String) → Except String String
  summarize : String → List String → Except String String
  persist : String → List String → Except String Bool
  renderErr : String → Except String String
  llm : String → String

/-- Steps 3-5 of `process_user_input` given the computed `tool_results` dict
(with `tools_used = list(tool_results.keys())`): generate the response and
the summary, persist, and build the success dict. -/
def runTurnAfterTools (env : AgentEnv) (ta : ToolPlan)
    (tool_results : List (String × String)) : Except String TurnResult :=
  match env.respond tool_results with
  | Except.error e => Except.error e
  | Except.ok resp =>
    match env.summarize resp (tool_results.map Prod.fst) with
    | Except.error e => Except.error e
    | Except.ok summ =>
      match env.persist resp (tool_results.map Prod.fst) with
      | Except.error e => Except.error e
      | Except.ok _ =>
        Except.ok ⟨resp, tool_results.map Prod.fst, tool_results, summ, some ta, none⟩

/-- Step 2 of `process_user_input`: run the plan's tools only when
`needs_tools`, then continue with the rest of the pipeline. -/
def runTurnAfterAnalyze (env : AgentEnv) (ta : ToolPlan) : Except String TurnResult :=
  runTurnAfterTools env ta
    (if ta.needs_tools then _execute_tools env.execTool ta.tools_to_use else [])

/-- Steps 1-5 of `process_user_input` (the body of its `try`): analyze, run
tools when `needs_tools`, set `tools_used = list(tool_results.keys())`,
generate the response and the summary, persist, and build the success dict. -/
def runTurn (env : AgentEnv) : Except String TurnResult :=
  match env.analyze with
  | Except.error e => Except.error e
  | Except.ok ta => runTurnAfterAnalyze env ta

/-- `SimpleAgent.process_user_input`: the `try` body, and on any exception the
error branch, which renders the error prompt (a step that can itself raise,
in which case the new exception propagates to the caller), calls the LLM on
it, and returns the failure dict. -/
def process_user_input (env : AgentEnv) : Except String TurnResult :=
  match runTurn env with
  | Except.ok r => Except.ok r
  | Except.error e =>
    match env.renderErr e with
    | Except.ok p =>
      Except.ok ⟨env.llm p, [], [], "Error occurred: " ++ e, none, some e⟩
    | Except.error e2 => Except.error e2

/-! ## Memory store (src/agent/utils/memory.py, Memory) -/

/-- One conversation turn as persisted by `add_conversation_turn`. -/
structure Turn where
  timestamp : String
  user_input : String
  agent_response : String
  tools_used : List String
deriving DecidableEq

/-- The `metadata` block. -/
structure Metadata where
  created_at : String
  last_updated : String
deriving DecidableEq

/-- The in-memory store `self.data`. -/
structure MemoryData where
  conversations : List Turn
  agent_state : List (String × Json)
  metadata : Metadata

/-- A parsed memory file: a JSON document in which any of the three expected
top-level keys may be missing (`_load_memory` back-fills them). -/
structure FileDoc where
  conversations : Option (List Turn)
  agent_state : Option (List (String × Json))
  metadata : Option Metadata

/-- The durable file: absent, or present but unparseable, or parsed. -/
def Disk : Type := Option (Except Unit FileDoc)

/-- `Memory._create_empty_memory`; `now1` and `now2` are the two successive
`datetime.now().isoformat()` readings it takes. -/
def _create_empty_memory (now1 now2 : String) : MemoryData :=
  ⟨[], [], ⟨now1, now2⟩⟩

/-- `Memory._load_memory`: a missing or unparseable file yields a fresh empty
structure; a parsed file has each missing key back-filled (`now1`/`now2` are
the clock readings used if the `metadata` key must be rebuilt). -/
def _load_memory (disk : Disk) (now1 now2 : String) : MemoryData :=
  match disk with
  | none => _create_empty_memory now1 now2
  | some (Except.error _) => _create_empty_memory now1 now2
  | some (Except.ok d) =>
    ⟨d.conversations.getD [], d.agent_state.getD [], d.metadata.getD ⟨now1, now2⟩⟩

/-- `Memory._save_memory`: re-stamp `last_updated` with a fresh clock reading
`now` (this happens before the write, so it takes effect even when the write
fails), then rewrite the whole file; `ioOk` is whether the file write
succeeds. Returns the updated in-memory data, the disk state, and the bool
result. -/
def _save_memory (d : MemoryData) (now : String) (ioOk : Bool) (disk : Disk) :
    MemoryData × Disk × Bool :=
  let d2 : MemoryData := ⟨d.conversations, d.agent_state, ⟨d.metadata.created_at, now⟩⟩
  if ioOk then
    (d2, some (Except.ok ⟨some d2.conversations, some d2.agent_state, some d2.metadata⟩), true)
  else (d2, disk, false)

/-- `Memory.add_conversation_turn`: build the turn record (stamping `nowTurn`,
and `tools_used or []`), append it, and save (stamping `nowSave`). -/
def add_conversation_turn (d : MemoryData) (disk : Disk) (user_input agent_response : String)
    (tools_used : Option (List String)) (nowTurn nowSave : String) (ioOk : Bool) :
    MemoryData × Disk × Bool :=
  let turn : Turn := ⟨nowTurn, user_input, agent_response, tools_used.getD []⟩
  _save_memory ⟨d.conversations ++ [turn], d.agent_state, d.metadata⟩ nowSave ioOk disk

/-- Python slice `l[start:]` with a possibly negative start. -/
def pySliceFrom (start : Int) (l : List Turn) : List Turn :=
  if 0 ≤ start then l.drop start.toNat
  else l.drop (l.length - (-start).toNat)

/-- `Memory.get_recent_conversations`: the expression
`self.data["conversations"][-limit:] if self.data["conversations"] else []`. -/
def get_recent_conversations (convs : List Turn) (limit : Int) : List Turn :=
  if convs.isEmpty then [] else pySliceFrom (-limit) convs

/-- `Memory.clear_all`: replace the data with a fresh empty structure
(clock readings `now1`, `now2`) and save (clock reading `now3`). -/
def clear_all (d : MemoryData) (disk : Disk) (now1 now2 now3 : String) (ioOk : Bool) :
    MemoryData × Disk × Bool :=
  _save_memory (_create_empty_memory now1 now2) now3 ioOk disk

/-- The fields of `Memory.get_memory_stats` (`file_size_bytes` is the length
of the serialised text, below the document-level file model, and is omitted). -/
structure MemoryStats where
  conversation_count : Nat
  agent_state_keys : Nat
  memory_file : String
  file_exists : Bool
  metadata : Metadata

/-- `Memory.get_memory_stats`. -/
def get_memory_stats (d : MemoryData) (memory_file : String) (disk : Disk) : MemoryStats :=
  ⟨d.conversations.length, d.agent_state.length, memory_file, disk.isSome, d.metadata⟩

/-! ## Current-time tool (src/tools/getcurrenttime.py, GetCurrentTimeTool) -/

/-- One reading of `datetime.now()`: the broken-down local time plus the value
`int(now.timestamp())` at that instant. -/
structure PyDatetime where
  year : Nat
  month : Nat
  day : Nat
  hour : Nat
  minute : Nat
  second : Nat
  microsecond : Nat
  epochSeconds : Int

/-- Zero-pad to two digits. -/
def pad2 (n : Nat) : String := if n < 10 then "0" ++ toString n else toString n

/-- Zero-pad to four digits. -/
def pad4 (n : Nat) : String :=
  if n < 10 then "000" ++ toString n
  else if n < 100 then "00" ++ toString n
  else if n < 1000 then "0" ++ toString n
  else toString n

/-- Zero-pad to six digits (microseconds in `isoformat`). -/
def pad6 (n : Nat) : String :=
  if n < 10 then "00000" ++ toString n
  else if n < 100 then "0000" ++ toString n
  else if n < 1000 then "000" ++ toString n
  else if n < 10000 then "00" ++ toString n
  else if n < 100000 then "0" ++ toString n
  else toString n

/-- `now.strftime("%Y-%m-%d")`. -/
def strftimeDate (d : PyDatetime) : String :=
  pad4 d.year ++ "-" ++ pad2 d.month ++ "-" ++ pad2 d.day

/-- `now.strftime("%H:%M:%S")`. -/
def strftimeTime (d : PyDatetime) : String :=
  pad2 d.hour ++ ":" ++ pad2 d.minute ++ ":" ++ pad2 d.second

/-- `now.strftime("%Y-%m-%d %H:%M:%S")` (the readable format). -/
def strftimeReadable (d : PyDatetime) : String :=
  strftimeDate d ++ " " ++ strftimeTime d

/-- `now.isoformat()`: microseconds are printed only when non-zero. -/
def pyIsoformat (d : PyDatetime) : String :=
  strftimeDate d ++ "T" ++ strftimeTime d ++
    (if d.microsecond = 0 then "" else "." ++ pad6 d.microsecond)

/-- The `enum` of the `format` property in `GetCurrentTimeTool.parameters`. -/
def getCurrentTimeFormatEnum : List String :=
  ["iso", "readable", "timestamp", "date_only", "time_only"]

/-- `GetCurrentTimeTool.execute(format, timezone)` at the clock reading `now`:
the if/elif chain on `format`, every unmatched value falling to the readable
branch. The body cannot raise, so the surrounding `try/except` is inert;
the `timezone` argument is accepted and never consulted. -/
def getCurrentTime_execute (now : PyDatetime) (format : String) (timezone : String) : String :=
  if format = "iso" then pyIsoformat now
  else if format = "timestamp" then toString now.epochSeconds
  else if format = "date_only" then strftimeDate now
  else if format = "time_only" then strftimeTime now
  else strftimeReadable now

/-! ## Concrete instances used by witnesses and counterexamples -/

/-- A concrete turn with a numbered timestamp. -/
def sampleTurn (n : Nat) : Turn := ⟨toString n, "u", "a", []⟩

/-- A five-turn store. -/
def fiveTurns : List Turn := [sampleTurn 1, sampleTurn 2, sampleTurn 3, sampleTurn 4, sampleTurn 5]

/-- A non-empty concrete store state. -/
def memSample : MemoryData :=
  ⟨[⟨"t0", "hi", "hello", []⟩], [("k", Json.null)], ⟨"c0", "u0"⟩⟩

/-- The stats snapshot taken right after `clear_all` on `memSample`, with the
clock reading "T1"/"T2" at the clear and "T3" at the save. -/
def clearedStats : MemoryStats :=
  get_memory_stats (clear_all memSample none "T1" "T2" "T3" true).1 "memory.json"
    (clear_all memSample none "T1" "T2" "T3" true).2.1

/-- A registry holding the one default tool, with a fixed clock result. -/
def regSample : ToolRegistry :=
  [("get_current_time", fun _ => Except.ok "2024-01-01 12:00:00")]

/-- A concrete clock reading. -/
def nowSample : PyDatetime := ⟨2024, 1, 2, 3, 4, 5, 0, 1704164645⟩

/-- A render-call outcome in which the Jinja render fails, the template name
is among the loaded prompts, and the `str.format` fallback fails too. -/
def renderBad : RenderEnv :=
  ⟨Except.error "TemplateSyntaxError", true, Except.error "KeyError", "vars dump"⟩

/-- A render-call outcome in which the Jinja render fails on a template name
absent from the loaded prompts. -/
def renderDumpEnv : RenderEnv :=
  ⟨Except.error "TemplateNotFound", false, Except.error "KeyError", "vars dump"⟩

/-- A plan that needs tools and exercises every entry case: a normal entry,
an empty-name entry, an entry with no keys at all, and a repeat of the first
name with different parameters. -/
def planSample : ToolPlan :=
  ⟨true, [⟨some "get_current_time", some (Json.obj [])⟩, ⟨some "", none⟩,
          ⟨none, some Json.null⟩, ⟨some "get_current_time", some (Json.str "again")⟩],
   "time query"⟩

/-- A turn whose analysis yields `planSample` and whose remaining steps all
succeed. -/
def envTools : AgentEnv :=
  ⟨Except.ok planSample, fun n _ => "result for " ++ n, fun _ => Except.ok "resp",
   fun _ _ => Except.ok "summ", fun _ _ => Except.ok true, fun _ => Except.ok "",
   fun s => s⟩

/-- The success dict `envTools` produces. -/
def turnResultSample : TurnResult :=
  ⟨"resp", ["get_current_time"], [("get_current_time", "result for get_current_time")],
   "summ", some planSample, none⟩

/-- A turn in which the analysis step raises and the error-branch render of
the error-handling prompt raises as well. -/
def envBad : AgentEnv :=
  ⟨Except.error "boom", fun _ _ => "", fun _ => Except.ok "", fun _ _ => Except.ok "",
   fun _ _ => Except.ok true, fun _ => Except.error "KeyError", fun s => s⟩

/-- A turn in which the analysis step raises and the error branch runs
through: the error prompt renders and the LLM produces the apology. -/
def envRecovered : AgentEnv :=
  ⟨Except.error "boom", fun _ _ => "", fun _ => Except.ok "", fun _ _ => Except.ok "",
   fun _ _ => Except.ok true, fun _ => Except.ok "apology prompt",
   fun s => "apology: " ++ s⟩

end SimpleReactAgent

namespace SimpleReactAgent

/-! ## Claim C9: the timezone parameter is never applied -/

/-- Claim C9: for every format value and every pair of timezone strings, the
current-time tool's execute produces the same output for both timezone values
given the same clock reading: the timezone parameter is accepted but never
applied to the computed value, which is always the local-time reading. -/
theorem timezone_never_applied (now : PyDatetime) (format tz1 tz2 : String) :
    getCurrentTime_execute now format tz1 = getCurrentTime_execute now format tz2 := rfl

/-! ## Claim C10: unknown format values fall through to the readable branch -/

/-- Claim C10: for every format string outside the declared enum, the
current-time tool's execute does not fail or reject the value: it falls
through to the readable branch and returns the time formatted as
`%Y-%m-%d %H:%M:%S`, exactly as for `format="readable"`. -/
theorem unknown_format_falls_to_readable (now : PyDatetime) (format tz : String)
    (h : format ∉ getCurrentTimeFormatEnum) :
    getCurrentTime_execute now format tz = strftimeReadable now ∧
    getCurrentTime_execute now format tz = getCurrentTime_execute now "readable" tz := by
  simp only [getCurrentTimeFormatEnum, List.mem_cons, List.not_mem_nil, or_false,
    not_or] at h
  obtain ⟨h1, h2, h3, h4, h5⟩ := h
  have hr : getCurrentTime_execute now format tz = strftimeReadable now := by
    simp [getCurrentTime_execute, h1, h3, h4, h5]
  have hr2 : getCurrentTime_execute now "readable" tz = strftimeReadable now := rfl
  exact ⟨hr, hr.trans hr2.symm⟩

/-- Witness for claim C10 at the out-of-enum format value "full". -/
theorem unknown_format_falls_to_readable_witness :
    getCurrentTime_execute nowSample "full" "UTC" = strftimeReadable nowSample ∧
    getCurrentTime_execute nowSample "full" "UTC" =
      getCurrentTime_execute nowSample "readable" "UTC" :=
  unknown_format_falls_to_readable nowSample "full" "UTC" (by decide)

/-! ## Claim C4: Registry execute never lets an exception propagate -/

/-- Claim C4: for every tool name and every parameter mapping, `execute_tool`
never lets an exception propagate: if the name is absent from the registry the
result is the text `Error executing tool '<name>': <message>` (the message
being the stringified `KeyError`), if the executor raises for any reason the
result is that text with the executor's message, and otherwise it is the
executor's string result. -/
theorem execute_tool_catches (reg : ToolRegistry) (name : String) (params : Json) :
    (lookupTool reg name = none →
      execute_tool reg name params =
        "Error executing tool '" ++ name ++ "': " ++ keyErrorText name) ∧
    (∀ t, lookupTool reg name = some t →
      (∀ e, t params = Except.error e →
        execute_tool reg name params = "Error executing tool '" ++ name ++ "': " ++ e) ∧
      (∀ s, t params = Except.ok s → execute_tool reg name params = s)) := by
  refine ⟨fun h => ?_, fun t ht => ⟨fun e he => ?_, fun s hs => ?_⟩⟩ <;>
    simp [execute_tool, get_tool, *]

/-- Witness for claim C4: asking `regSample` for an unregistered tool yields
the textual error result. -/
theorem execute_tool_catches_witness :
    execute_tool regSample "recognize_face" Json.null =
      "Error executing tool 'recognize_face': " ++ keyErrorText "recognize_face" :=
  (execute_tool_catches regSample "recognize_face" Json.null).1 rfl

/-! ## Claim C6: get_recent_conversations returns the last limit turns -/

/-- Claim C6 (amended): for every positive limit and every store,
`get_recent_conversations` returns the last `limit` turns in chronological
order (all turns if fewer than `limit` exist, the empty sequence if none
exist). For `limit = 0` the claim as stated fails: the Python slice `[-0:]`
returns every turn, see the counterexample. -/
theorem get_recent_last_limit (convs : List Turn) (limit : Int) (h : 0 < limit) :
    get_recent_conversations convs limit = convs.drop (convs.length - limit.toNat) ∧
    (convs.length ≤ limit.toNat → get_recent_conversations convs limit = convs) ∧
    (convs = [] → get_recent_conversations convs limit = []) := by
  have hmain : get_recent_conversations convs limit =
      convs.drop (convs.length - limit.toNat) := by
    cases convs with
    | nil => simp [get_recent_conversations]
    | cons a l =>
      have hne : (a :: l).isEmpty = false := rfl
      have hneg : ¬ (0 ≤ -limit) := by omega
      simp [get_recent_conversations, pySliceFrom, hne, hneg]
  refine ⟨hmain, fun hle => ?_, fun hnil => ?_⟩
  · rw [hmain, Nat.sub_eq_zero_of_le hle, List.drop_zero]
  · subst hnil; simp [get_recent_conversations]

/-- Witness for claim C6: on a five-turn store, `limit = 3` returns turns
3, 4, 5 in that order and `limit = 10` returns all five. -/
theorem get_recent_last_limit_witness :
    get_recent_conversations fiveTurns 3 = [sampleTurn 3, sampleTurn 4, sampleTurn 5] ∧
    get_recent_conversations fiveTurns 10 = fiveTurns := by
  constructor
  · have h := (get_recent_last_limit fiveTurns 3 (by decide)).1
    rw [h]; rfl
  · exact (get_recent_last_limit fiveTurns 10 (by decide)).2.1 (by decide)

/-- Counterexample to claim C6 as stated: with `limit = 0` on a one-turn
store, the code returns the whole store rather than the last zero turns
(the Python slice `[-0:]` is `[0:]`). -/
theorem get_recent_zero_counterexample :
    get_recent_conversations [sampleTurn 1] 0 = [sampleTurn 1] ∧
    get_recent_conversations [sampleTurn 1] 0 ≠ [] := by
  refine ⟨rfl, ?_⟩
  decide

/-! ## Claim C7: persisting a turn, reloading, and recent(1) round-trips -/

/-- Claim C7: for every turn, persisting it with `add_conversation_turn`
(with the file write succeeding), reloading the store from its durable file,
and calling `get_recent_conversations` with limit 1 returns a turn equal in
all fields (timestamp, user_input, agent_response, tools_used) to the one
persisted. -/
theorem memory_roundtrip (d : MemoryData) (disk : Disk)
    (u a nowT nowS nowL1 nowL2 : String) (tools : Option (List String)) :
    get_recent_conversations
      (_load_memory (add_conversation_turn d disk u a tools nowT nowS true).2.1
        nowL1 nowL2).conversations 1
      = [⟨nowT, u, a, tools.getD []⟩] := by
  show get_recent_conversations (d.conversations ++ [⟨nowT, u, a, tools.getD []⟩]) 1 = _
  have hne : (d.conversations ++ [(⟨nowT, u, a, tools.getD []⟩ : Turn)]).isEmpty = false := by
    simp [List.isEmpty_iff]
  have hlen : (d.conversations ++ [(⟨nowT, u, a, tools.getD []⟩ : Turn)]).length - 1
      = d.conversations.length := by simp
  have hneg : ¬ (0 ≤ (-1 : Int)) := by omega
  simp only [get_recent_conversations, hne, Bool.false_eq_true, if_false, pySliceFrom,
    hneg, if_neg, Int.neg_neg, Int.toNat_one, hlen]
  exact List.drop_left d.conversations _

/-! ## Claim C8: clear_all followed by stats -/

/-- Claim C8 (amended): for every store state, calling `clear_all` and then
`get_memory_stats` reports `conversation_count = 0`, `agent_state_keys = 0`,
a `created_at` freshly stamped at the clear, and a `last_updated` re-stamped
by the save that `clear_all` performs; the two are equal exactly when those
two clock readings coincide (they are distinct `datetime.now()` calls, so
equality is not guaranteed — see the counterexample). -/
theorem clear_all_stats (d : MemoryData) (disk : Disk) (f now1 now2 now3 : String)
    (ioOk : Bool) :
    (get_memory_stats (clear_all d disk now1 now2 now3 ioOk).1 f
        (clear_all d disk now1 now2 now3 ioOk).2.1).conversation_count = 0 ∧
    (get_memory_stats (clear_all d disk now1 now2 now3 ioOk).1 f
        (clear_all d disk now1 now2 now3 ioOk).2.1).agent_state_keys = 0 ∧
    (get_memory_stats (clear_all d disk now1 now2 now3 ioOk).1 f
        (clear_all d disk now1 now2 now3 ioOk).2.1).metadata.created_at = now1 ∧
    (get_memory_stats (clear_all d disk now1 now2 now3 ioOk).1 f
        (clear_all d disk now1 now2 now3 ioOk).2.1).metadata.last_updated = now3 := by
  cases ioOk <;> exact ⟨rfl, rfl, rfl, rfl⟩

/-! ## Claim C3: the prompt renderer's fallback chain -/

/-- Claim C3 (amended): on a rendering failure `_render_template` falls back
to the keyword text substitution when the template name is among the loaded
prompts — and a failure of that substitution is not caught, so the renderer
can raise; the stringified dump of the variables is returned only when the
template name is absent from the loaded prompts. -/
theorem render_template_fallback (env : RenderEnv) :
    (∀ s, env.jinja = Except.ok s → _render_template env = Except.ok s) ∧
    (∀ e, env.jinja = Except.error e → env.inPrompts = true →
      _render_template env = env.pyFormat) ∧
    (∀ e, env.jinja = Except.error e → env.inPrompts = false →
      _render_template env = Except.ok env.strDump) := by
  refine ⟨fun s hs => ?_, fun e he hp => ?_, fun e he hp => ?_⟩ <;>
    simp [_render_template, *]

/-- Witness for claim C3 (amended): with the template name absent from the
loaded prompts, a failed render returns the stringified variable dump. -/
theorem render_template_fallback_witness :
    _render_template renderDumpEnv = Except.ok "vars dump" :=
  (render_template_fallback renderDumpEnv).2.2 "TemplateNotFound" rfl rfl

/-- Counterexample to claim C3 as stated: when the Jinja render fails, the
template name is among the loaded prompts, and the keyword substitution also
fails, `_render_template` raises (no fallback to the stringified dump ever
happens), refuting "the prompt renderer never raises". -/
theorem render_template_counterexample :
    _render_template renderBad = Except.error "KeyError" := rfl

/-! ## Claim C2: process_user_input returns a structured result -/

/-- Helper: a successful run of the try-body determines the shape of the
success dict: `tools_used` is the key list of `tool_results`, the plan is
attached, and no `error` field is present. -/
theorem runTurnAfterTools_ok_inv (env : AgentEnv) (ta : ToolPlan)
    (trs : List (String × String)) (r : TurnResult)
    (h : runTurnAfterTools env ta trs = Except.ok r) :
    r.tool_results = trs ∧ r.tools_used = trs.map Prod.fst ∧
    r.tool_analysis = some ta ∧ r.error = none := by
  unfold runTurnAfterTools at h
  cases hr : env.respond trs with
  | error e => simp only [hr] at h; exact Except.noConfusion h
  | ok resp =>
    simp only [hr] at h
    cases hs : env.summarize resp (trs.map Prod.fst) with
    | error e => simp only [hs] at h; exact Except.noConfusion h
    | ok summ =>
      simp only [hs] at h
      cases hp : env.persist resp (trs.map Prod.fst) with
      | error e => simp only [hp] at h; exact Except.noConfusion h
      | ok b =>
        simp only [hp] at h
        injection h with h
        subst h
        exact ⟨rfl, rfl, rfl, rfl⟩

/-- Helper: inversion of a successful try-body run from the top: the analysis
succeeded, `tool_results` is the conditional tool execution, `tools_used` is
its key list, and the result carries no `error` field. -/
theorem runTurn_ok_inv (env : AgentEnv) (r : TurnResult)
    (h : runTurn env = Except.ok r) :
    ∃ ta, env.analyze = Except.ok ta ∧
      r.tool_results =
        (if ta.needs_tools then _execute_tools env.execTool ta.tools_to_use else []) ∧
      r.tools_used = r.tool_results.map Prod.fst ∧
      r.tool_analysis = some ta ∧ r.error = none := by
  unfold runTurn at h
  cases ha : env.analyze with
  | error e => rw [ha] at h; exact Except.noConfusion h
  | ok ta =>
    rw [ha] at h
    unfold runTurnAfterAnalyze at h
    obtain ⟨h1, h2, h3, h4⟩ := runTurnAfterTools_ok_inv env ta _ r h
    exact ⟨ta, rfl, h1, by rw [h2, h1], h3, h4⟩

/-- Claim C2 (amended): provided the error-branch rendering of the
error-handling prompt does not itself raise, `process_user_input` always
returns a structured result for every outcome of the per-turn pipeline; when
the pipeline raises with message `e` the result has empty `tools_used`, empty
`tool_results`, summary `"Error occurred: " ++ e` and the `error` field set,
and on the success path the `error` field is absent. (Without the proviso the
claim as stated fails: a raise inside the error branch propagates to the
caller — see the counterexample.) -/
theorem process_user_input_structured (env : AgentEnv)
    (hrender : ∀ e, ∃ p, env.renderErr e = Except.ok p) :
    (∃ r, process_user_input env = Except.ok r) ∧
    (∀ e, runTurn env = Except.error e → ∃ p, env.renderErr e = Except.ok p ∧
      process_user_input env =
        Except.ok ⟨env.llm p, [], [], "Error occurred: " ++ e, none, some e⟩) ∧
    (∀ r, runTurn env = Except.ok r →
      process_user_input env = Except.ok r ∧ r.error = none) := by
  refine ⟨?_, fun e he => ?_, fun r hr => ?_⟩
  · cases hrt : runTurn env with
    | ok r => exact ⟨r, by simp [process_user_input, hrt]⟩
    | error e =>
      obtain ⟨p, hp⟩ := hrender e
      exact ⟨⟨env.llm p, [], [], "Error occurred: " ++ e, none, some e⟩,
        by simp [process_user_input, hrt, hp]⟩
  · obtain ⟨p, hp⟩ := hrender e
    exact ⟨p, hp, by simp [process_user_input, he, hp]⟩
  · obtain ⟨ta, _, _, _, _, herr⟩ := runTurn_ok_inv env r hr
    exact ⟨by simp [process_user_input, hr], herr⟩

/-- Witness for claim C2 (amended): a concrete turn whose analysis raises
"boom" and whose error branch runs through yields exactly the structured
failure dict. -/
theorem process_user_input_structured_witness :
    process_user_input envRecovered =
      Except.ok ⟨"apology: apology prompt", [], [], "Error occurred: boom",
        none, some "boom"⟩ := by
  obtain ⟨p, hp, hpr⟩ :=
    (process_user_input_structured envRecovered
      (fun _ => ⟨"apology prompt", rfl⟩)).2.1 "boom" rfl
  have hp2 : "apology prompt" = p := Except.ok.inj hp
  subst hp2
  exact hpr

/-- Counterexample to claim C2 as stated: when the pipeline raises and the
error-branch render of the error-handling prompt raises as well, the caller
sees a raw fault instead of a structured result. -/
theorem process_user_input_counterexample :
    process_user_input envBad = Except.error "KeyError" := rfl

/-! ## Claim C5: tool execution order, defaults, skipping, last-write-wins -/

/-- Helper: the keys of a dict after assignment `d[k] = v`: unchanged when
`k` was present (value updated in place), appended otherwise. -/
theorem keysOf_dictInsert (m : List (String × String)) (k v : String) :
    keysOf (dictInsert m k v) = insertKey (keysOf m) k := by
  induction m with
  | nil => simp [dictInsert, keysOf, insertKey]
  | cons p rest ih =>
    by_cases hp : p.1 = k
    · subst hp
      simp [dictInsert, keysOf, insertKey]
    · by_cases hk : k ∈ keysOf rest
      · simp [dictInsert, hp, keysOf, insertKey, hk, List.mem_cons, Ne.symm hp] at *
        simpa [insertKey, hk] using ih
      · simp only [dictInsert, if_neg hp, keysOf, List.map_cons] at *
        rw [ih]
        simp [insertKey, List.mem_cons, hk, Ne.symm hp]

/-- Helper: reading a dict after assignment `d[k] = v`. -/
theorem lookupStr_dictInsert (m : List (String × String)) (k v k' : String) :
    lookupStr (dictInsert m k v) k' = if k = k' then some v else lookupStr m k' := by
  induction m with
  | nil => simp [dictInsert, lookupStr]
  | cons p rest ih =>
    by_cases hp : p.1 = k
    · by_cases hkk : k = k'
      · subst hkk
        simp [dictInsert, hp, lookupStr]
      · simp [dictInsert, hp, lookupStr, hkk]
    · by_cases hpk : p.1 = k'
      · have hkk : ¬ (k = k') := fun h => hp (by rw [hpk, h])
        have hk2 : ¬ (k' = k) := fun h => hkk h.symm
        simp [dictInsert, hp, lookupStr, hpk, hkk, hk2]
      · simp [dictInsert, hp, lookupStr, hpk, ih]

/-- Helper: the keys accumulated by the `_execute_tools` loop. -/
theorem execToolsAux_keys (execT : String → Json → String) (specs : List ToolSpecEntry) :
    ∀ acc, keysOf (execToolsAux execT acc specs) =
      (activeNames specs).foldl insertKey (keysOf acc) := by
  induction specs with
  | nil => intro acc; rfl
  | cons s rest ih =>
    intro acc
    by_cases hname : s.tool_name.getD "" = ""
    · have hact : activeName s = none := by simp [activeName, hname]
      simp only [execToolsAux, if_pos hname, activeNames, List.filterMap_cons, hact]
      exact ih acc
    · have hact : activeName s = some (s.tool_name.getD "") := by simp [activeName, hname]
      simp only [execToolsAux, if_neg hname, activeNames, List.filterMap_cons, hact]
      rw [ih, keysOf_dictInsert]
      simp [List.foldl_cons, activeNames]

/-- Helper: the value accumulated by the `_execute_tools` loop under key `k`. -/
theorem execToolsAux_lookup (execT : String → Json → String) (specs : List ToolSpecEntry) :
    ∀ acc k, lookupStr (execToolsAux execT acc specs) k =
      match lastParams specs k with
      | some ps => some (execT k ps)
      | none => lookupStr acc k := by
  induction specs with
  | nil => intro acc k; rfl
  | cons s rest ih =>
    intro acc k
    by_cases hname : s.tool_name.getD "" = ""
    · have hact : activeName s = none := by simp [activeName, hname]
      have hlast : lastParams (s :: rest) k = lastParams rest k := by
        cases h : lastParams rest k <;> simp [lastParams, hact, h]
      simp only [execToolsAux, if_pos hname, hlast]
      exact ih acc k
    · have hact : activeName s = some (s.tool_name.getD "") := by simp [activeName, hname]
      simp only [execToolsAux, if_neg hname]
      rw [ih]
      cases h : lastParams rest k with
      | some ps => simp [lastParams, h]
      | none =>
        simp only [lastParams, h]
        rw [lookupStr_dictInsert]
        by_cases hk : s.tool_name.getD "" = k
        · simp [hact, hk, entryParams]
        · simp [hact, hk]

/-- Claim C5: for every plan whose `needs_tools` is true, tool execution
processes `tools_to_use` in plan order with the documented defaults, skips
entries whose `tool_name` is empty, records each result keyed by tool name
with the later result overwriting the earlier one at the key's original
position (last-write-wins), and the reported `tools_used` is exactly the keys
of the result mapping in insertion order: the key list is the
first-occurrence deduplication of the executed names in plan order, the value
under each key comes from executing the LAST entry carrying that name, and a
successful turn reports `tools_used = keys(tool_results)`. -/
theorem execute_tools_characterization (execT : String → Json → String)
    (specs : List ToolSpecEntry) :
    keysOf (_execute_tools execT specs) = firstDedup (activeNames specs) ∧
    (∀ k, lookupStr (_execute_tools execT specs) k =
      (lastParams specs k).map (fun ps => execT k ps)) ∧
    (∀ (env : AgentEnv) (ta : ToolPlan) (r : TurnResult),
      env.analyze = Except.ok ta → ta.needs_tools = true →
      runTurn env = Except.ok r →
      r.tool_results = _execute_tools env.execTool ta.tools_to_use ∧
      r.tools_used = keysOf r.tool_results) := by
  refine ⟨?_, fun k => ?_, fun env ta r ha hn hr => ?_⟩
  · exact execToolsAux_keys execT specs []
  · have h := execToolsAux_lookup execT specs [] k
    cases hl : lastParams specs k with
    | none => simp only [hl] at h; simpa [lookupStr] using h
    | some ps => simp only [hl] at h; simpa using h
  · obtain ⟨ta2, ha2, h1, h2, _, _⟩ := runTurn_ok_inv env r hr
    have hta : ta2 = ta := by
      rw [ha] at ha2
      exact (Except.ok.inj ha2).symm
    subst hta
    rw [hn, if_pos rfl] at h1
    exact ⟨h1, h2⟩

/-- Witness for claim C5: a concrete turn with a four-entry plan (normal
entry, empty-name entry, keyless entry, repeated name) yields exactly one
result key and `tools_used` equal to the result keys. -/
theorem execute_tools_characterization_witness :
    turnResultSample.tool_results = _execute_tools envTools.execTool planSample.tools_to_use ∧
    turnResultSample.tools_used = keysOf turnResultSample.tool_results :=
  (execute_tools_characterization envTools.execTool planSample.tools_to_use).2.2
    envTools planSample turnResultSample rfl rfl rfl

/-! ## Claim C1: brace-located extraction of the plan object -/

/-- Helper: dropping a leading run across an append whose right part starts
with an element failing the predicate leaves the right part intact. -/
theorem dropWhile_append_cons_neg {α : Type} (p : α → Bool) (a : List α) (c : α)
    (t : List α) (hc : p c = false) :
    (a ++ c :: t).dropWhile p = a.dropWhile p ++ c :: t := by
  rw [List.dropWhile_append]
  cases h : (a.dropWhile p).isEmpty with
  | false => simp [h]
  | true =>
    have ha : a.dropWhile p = [] := by simpa [List.isEmpty_iff] using h
    simp [h, ha, List.dropWhile_cons, hc]

/-- Helper: `str.strip` on prose ++ object ++ prose only trims whitespace off
the outer prose when the object starts with a brace and ends with a brace. -/
theorem pyStrip_decomp (pre mid post : List Char) :
    pyStrip (pre ++ ('{' :: (mid ++ ['}'])) ++ post)
      = pre.dropWhile pySpace ++ ('{' :: (mid ++ ['}']))
          ++ (post.reverse.dropWhile pySpace).reverse := by
  unfold pyStrip
  have hfront : (pre ++ ('{' :: (mid ++ ['}'])) ++ post).dropWhile pySpace
      = pre.dropWhile pySpace ++ ('{' :: (mid ++ ['}'])) ++ post := by
    have h := dropWhile_append_cons_neg pySpace pre '{' ((mid ++ ['}']) ++ post) rfl
    simpa [List.append_assoc] using h
  rw [hfront]
  have hrev : (pre.dropWhile pySpace ++ ('{' :: (mid ++ ['}'])) ++ post).reverse
      = post.reverse ++ '}' :: (mid.reverse ++ '{' :: (pre.dropWhile pySpace).reverse) := by
    simp [List.reverse_append, List.reverse_cons, List.append_assoc]
  rw [hrev,
    dropWhile_append_cons_neg pySpace post.reverse '}'
      (mid.reverse ++ '{' :: (pre.dropWhile pySpace).reverse) rfl]
  simp [List.reverse_append, List.reverse_cons, List.reverse_reverse, List.append_assoc]

/-- Claim C1 (amended): for every model reply decomposing as
prose ++ object ++ prose, where the object is brace-bracketed text (as any
JSON object literal is), the plan-parsing step extracts exactly the object's
text — and hence parsing it yields exactly that object — provided the prose
before it contains no opening brace and the prose after it contains no
closing brace. (When the surrounding prose itself contains braces the
extracted substring differs from the object, see the counterexample.) -/
theorem analyze_extract_exact (pre mid post : List Char)
    (hpre : ∀ c ∈ pre, c ≠ '{')
    (hpost : ∀ c ∈ post, c ≠ '}') :
    analyzeExtract (pre ++ ('{' :: (mid ++ ['}'])) ++ post)
      = some ('{' :: (mid ++ ['}'])) := by
  have hA : ∀ c ∈ pre.dropWhile pySpace, c ≠ '{' :=
    fun c hc => hpre c (List.dropWhile_subset pySpace hc)
  have hBrev : ∀ c ∈ post.reverse.dropWhile pySpace, c ≠ '}' := by
    intro c hc
    have h2 := List.dropWhile_subset pySpace hc
    rw [List.mem_reverse] at h2
    exact hpost c h2
  have hfind : pyFind '{'
      (pre.dropWhile pySpace ++ ('{' :: (mid ++ ['}']))
        ++ (post.reverse.dropWhile pySpace).reverse)
      = some (pre.dropWhile pySpace).length := by
    unfold pyFind
    have hnone : (pre.dropWhile pySpace).findIdx? (fun d => d == '{') = none := by
      rw [List.findIdx?_eq_none_iff]
      intro x hx
      simpa using hA x hx
    rw [List.append_assoc, List.findIdx?_append, hnone]
    simp
  have hrev2 : (pre.dropWhile pySpace ++ ('{' :: (mid ++ ['}']))
        ++ (post.reverse.dropWhile pySpace).reverse).reverse
      = post.reverse.dropWhile pySpace
          ++ '}' :: (mid.reverse ++ '{' :: (pre.dropWhile pySpace).reverse) := by
    simp [List.reverse_append, List.reverse_cons, List.reverse_reverse, List.append_assoc]
  have hrfind : pyRFind '}'
      (pre.dropWhile pySpace ++ ('{' :: (mid ++ ['}']))
        ++ (post.reverse.dropWhile pySpace).reverse)
      = some ((pre.dropWhile pySpace).length + mid.length + 1) := by
    unfold pyRFind
    have hnone : (post.reverse.dropWhile pySpace).findIdx? (fun d => d == '}') = none := by
      rw [List.findIdx?_eq_none_iff]
      intro x hx
      simpa using hBrev x hx
    rw [hrev2, List.findIdx?_append, hnone]
    simp [List.length_append]
    omega
  simp only [analyzeExtract, pyStrip_decomp, hfind, hrfind]
  rw [if_pos (by omega)]
  have hdrop : (pre.dropWhile pySpace ++ ('{' :: (mid ++ ['}']))
        ++ (post.reverse.dropWhile pySpace).reverse).drop (pre.dropWhile pySpace).length
      = ('{' :: (mid ++ ['}'])) ++ (post.reverse.dropWhile pySpace).reverse := by
    rw [List.append_assoc]
    exact List.drop_left _ _
  rw [hdrop]
  have harith : (pre.dropWhile pySpace).length + mid.length + 1 + 1
      - (pre.dropWhile pySpace).length = mid.length + 2 := by omega
  rw [harith]
  rw [List.take_left' (by simp)]

/-- Witness for claim C1 (amended): a reply with brace-free prose around a
brace-bracketed object is extracted exactly. -/
theorem analyze_extract_exact_witness :
    analyzeExtract ("Sure, the plan: ".toList
        ++ ('{' :: ("needs tools yes".toList ++ ['}'])) ++ " Good luck.".toList)
      = some ('{' :: ("needs tools yes".toList ++ ['}'])) :=
  analyze_extract_exact "Sure, the plan: ".toList "needs tools yes".toList
    " Good luck.".toList (by decide) (by decide)

/-- Counterexample to claim C1 as stated: the reply consisting of the prose
character `x7b` followed by the valid empty JSON object extracts the whole
three-character string, not the object: prose containing a brace breaks the
first-brace/last-brace extraction. -/
theorem analyze_extract_counterexample :
    analyzeExtract (['{'] ++ ('{' :: (([] : List Char) ++ ['}'])) ++ [])
        = some ['{', '{', '}'] ∧
      (['{', '{', '}'] : List Char) ≠ '{' :: (([] : List Char) ++ ['}']) := by
  decide

/-- Counterexample to claim C8 as stated: after `clear_all` on a concrete
store with clock readings "T1", "T2" at the clear and "T3" at the save, the
stats snapshot has `conversation_count = 0` and `agent_state_keys = 0` but
`created_at` ("T1") differs from `last_updated` ("T3"). -/
theorem clear_all_stats_counterexample :
    clearedStats.conversation_count = 0 ∧ clearedStats.agent_state_keys = 0 ∧
    clearedStats.metadata.created_at ≠ clearedStats.metadata.last_updated := by
  refine ⟨rfl, rfl, ?_⟩
  decide

end SimpleReactAgent
